import Mathlib

/-!
# LumiCreate — verification of the job-orchestration and composition-readiness layer

Shallow embedding of the LumiCreate frontend (Vue 3 + TypeScript) data model and
of the operations referenced by the specification: segment readiness labels,
compose-eligibility checks, the job store's retry/cancel cache updates, the
default video-composer configuration, and the segment-editor save payload.
The backend HTTP handlers (job retry/cancel state transitions, subtitle cue
splitting) are not part of the repository snapshot; where a claim depends on
them they are modelled from the specification text and marked as such.

Source files referenced:
* `frontend/src/types/index.ts` — entity types (`Project`, `Segment`, `Job`, …)
* `frontend/src/api/index.ts` — API payload shapes (`projectApi.update`)
* `frontend/src/components/ComposePanel.vue` — readiness counters, `canCompose`,
  `fetchComposeJobs`, cancel-button gating
* `frontend/src/views/ProjectEditor.vue` — header `canCompose`
* `frontend/src/views/TaskCenter.vue` (and the pinia job store bundled with it) —
  `retryJob`, `cancelJob`, retry/cancel button gating
* `frontend/src/components/ScriptPanel.vue` — `getSegmentStatusLabel`,
  `getSegmentStatusType`, `saveSegment`, `defaultConfig.video_composer`
-/

/-! ## Data model (from `frontend/src/types/index.ts`) -/

/-- `ProjectStatus` union type, `types/index.ts` lines 2–8. -/
inductive ProjectStatus where
  | draft
  | script_ready
  | images_ready
  | audio_ready
  | composable
  | exported
deriving DecidableEq, Repr

/-- `SegmentStatus` union type, `types/index.ts` lines 11–15. -/
inductive SegmentStatus where
  | pending
  | image_ready
  | audio_ready
  | complete
deriving DecidableEq, Repr

/-- `JobType` union type, `types/index.ts` lines 26–32. -/
inductive JobType where
  | deepseek
  | script_parse
  | image_gen
  | tts
  | video_compose
  | ai_fill
deriving DecidableEq, Repr

/-- `JobStatus` union type, `types/index.ts` lines 35–40. -/
inductive JobStatus where
  | queued
  | running
  | succeeded
  | failed
  | canceled
deriving DecidableEq, Repr

/-- The `Segment` interface, `types/index.ts` lines 170–187.  Optional
TypeScript fields become `Option`; asset ids are positive database ids, so the
JavaScript truthiness tests on them coincide with `Option.isSome`.
`segment_metadata` (an open JSON object read and written by
`ScriptPanel.vue`) holds the multi-scene `visual_prompts` list; its other keys
are kept opaque. -/
structure SegmentMetadata where
  visual_prompts : List String
  otherKeys : List (String × String)
deriving DecidableEq, Repr

structure Segment where
  id : Nat
  project_id : Nat
  script_id : Option Nat
  order_index : Nat
  segment_title : Option String
  narration_text : String
  visual_prompt : Option String
  on_screen_text : Option String
  mood : Option String
  shot_type : Option String
  status : SegmentStatus
  selected_image_asset_id : Option Nat
  audio_asset_id : Option Nat
  duration_ms : Option Nat
  segment_metadata : Option SegmentMetadata
deriving DecidableEq, Repr

/-- The `Job` interface, `types/index.ts` lines 217–231.  The opaque
`params`/`result` payloads are kept as strings. -/
structure Job where
  id : Nat
  project_id : Nat
  segment_id : Option Nat
  job_type : JobType
  status : JobStatus
  progress : Nat
  error_message : Option String
  params : Option String
  result : Option String
  celery_task_id : Option String
  created_at : String
  started_at : Option String
  finished_at : Option String
deriving DecidableEq, Repr

/-- The `Project` interface, `types/index.ts` lines 146–154 (the nested
`project_config` is kept opaque here; its defaults are embedded separately). -/
structure Project where
  id : Nat
  name : String
  description : Option String
  status : ProjectStatus
  created_at : String
  updated_at : String
deriving DecidableEq, Repr

/-! ## Segment readiness labels (from `ScriptPanel.vue` lines 515–526) -/

/-- `getSegmentStatusType`, `ScriptPanel.vue` lines 515–519: tag colour class
derived from the two asset pointers. -/
def getSegmentStatusType (s : Segment) : String :=
  if s.selected_image_asset_id.isSome && s.audio_asset_id.isSome then "success"
  else if s.selected_image_asset_id.isSome || s.audio_asset_id.isSome then "warning"
  else "info"

/-- `getSegmentStatusLabel`, `ScriptPanel.vue` lines 521–526: the displayed
readiness label, derived from `selected_image_asset_id` and `audio_asset_id`
alone ("就绪" = ready, "缺音频" = missing audio, "缺图片" = missing image,
"待处理" = pending). -/
def getSegmentStatusLabel (s : Segment) : String :=
  if s.selected_image_asset_id.isSome && s.audio_asset_id.isSome then "就绪"
  else if s.selected_image_asset_id.isSome then "缺音频"
  else if s.audio_asset_id.isSome then "缺图片"
  else "待处理"

/-! ## Compose eligibility (from `ComposePanel.vue` and `ProjectEditor.vue`) -/

/-- `imageCount`, `ComposePanel.vue` lines 195–197. -/
def imageCount (segments : List Segment) : Nat :=
  (segments.filter fun s => s.selected_image_asset_id.isSome).length

/-- `audioCount`, `ComposePanel.vue` lines 199–201. -/
def audioCount (segments : List Segment) : Nat :=
  (segments.filter fun s => s.audio_asset_id.isSome).length

/-- `imagesReady`, `ComposePanel.vue` lines 203–205. -/
def imagesReady (segments : List Segment) : Bool :=
  decide (segments.length > 0) && (imageCount segments == segments.length)

/-- `audioReady`, `ComposePanel.vue` lines 207–209. -/
def audioReady (segments : List Segment) : Bool :=
  decide (segments.length > 0) && (audioCount segments == segments.length)

/-- `canCompose`, `ComposePanel.vue` line 211: readiness of the segments only. -/
def composePanelCanCompose (segments : List Segment) : Bool :=
  imagesReady segments && audioReady segments

/-- `canCompose`, `ProjectEditor.vue` lines 106–110: checks selected images and
the global composing flag, but not audio. -/
def projectEditorCanCompose (segments : List Segment) (isComposing : Bool) : Bool :=
  decide (segments.length > 0)
    && segments.all (fun s => s.selected_image_asset_id.isSome)
    && !isComposing

/-- The `job_type = video_compose` server-side filter applied by
`jobApi.list(projectId, pick job_type video_compose)` as called from
`fetchComposeJobs`, `ComposePanel.vue` line 231. -/
def videoComposeJobs (jobs : List Job) : List Job :=
  jobs.filter fun j => j.job_type == JobType.video_compose

/-- `hasRunningJob`, `ComposePanel.vue` lines 234–236: some fetched job is
`running` or `queued`. -/
def hasRunningJob (items : List Job) : Bool :=
  items.any fun j => j.status == JobStatus.running || j.status == JobStatus.queued

/-- The value `jobStore.isComposing` holds immediately after a successful
`fetchComposeJobs` over project job list `jobs`
(`ComposePanel.vue` lines 229–241: `setComposing(hasRunningJob)` overwrites the
previous flag value unconditionally). -/
def flagAfterFetch (_oldFlag : Bool) (jobs : List Job) : Bool :=
  hasRunningJob (videoComposeJobs jobs)

/-- `isGlobalComposing`, `ComposePanel.vue` line 193: the store flag or the
local in-flight request flag. -/
def isGlobalComposing (storeIsComposing localComposing : Bool) : Bool :=
  storeIsComposing || localComposing

/-- Enablement of the compose button, `ComposePanel.vue` line 70
(`:disabled = !canCompose || isGlobalComposing`), in the quiescent state right
after a successful `fetchComposeJobs` (no local request in flight). -/
def composeButtonEnabled (segments : List Segment) (jobs : List Job) : Bool :=
  composePanelCanCompose segments
    && !(isGlobalComposing (flagAfterFetch false jobs) false)

/-- The compose-eligibility condition exactly as the specification words it
(spec §4.2 and glossary "Composable"): at least one segment, every segment has
both a selected image and generated audio, and no video-composition job for the
project is currently queued or running.  Stated from the spec, for comparison
with the source's `canCompose` definitions. -/
def specCanCompose (segments : List Segment) (jobs : List Job) : Prop :=
  segments ≠ [] ∧
  (∀ s ∈ segments, s.selected_image_asset_id.isSome ∧ s.audio_asset_id.isSome) ∧
  ¬ ∃ j ∈ jobs, j.job_type = JobType.video_compose ∧
      (j.status = JobStatus.queued ∨ j.status = JobStatus.running)

instance (segments : List Segment) (jobs : List Job) :
    Decidable (specCanCompose segments jobs) := by
  unfold specCanCompose
  infer_instance

/-! ## Job store cache updates and button gating
(from `TaskCenter.vue` and the pinia job store bundled with it) -/

/-- `retryJob` of the job store (`TaskCenter.vue` lines 728–734): after the
`POST /jobs/id/retry` request succeeds, the cached list entry found by
`findIndex(fun j => j.id == id)` gets its `status` field set to `queued`; every
other entry is untouched. -/
def storeRetryJob : List Job → Nat → List Job
  | [], _ => []
  | j :: rest, id =>
    if j.id = id then { j with status := JobStatus.queued } :: rest
    else j :: storeRetryJob rest id

/-- `cancelJob` of the job store (`TaskCenter.vue` lines 736–742): after the
`POST /jobs/id/cancel` request succeeds, the cached entry found by
`findIndex` gets its `status` set to `canceled`; every other entry is
untouched. -/
def storeCancelJob : List Job → Nat → List Job
  | [], _ => []
  | j :: rest, id =>
    if j.id = id then { j with status := JobStatus.canceled } :: rest
    else j :: storeCancelJob rest id

/-- Retry-button gating, `TaskCenter.vue` line 78: the retry action is rendered
only for a `failed` job. -/
def showRetryButton (j : Job) : Bool :=
  j.status == JobStatus.failed

/-- Cancel-button gating, `TaskCenter.vue` line 87: the cancel action is
rendered only for a `running` or `queued` job. -/
def showCancelButton (j : Job) : Bool :=
  j.status == JobStatus.running || j.status == JobStatus.queued

/-- Cancel-button gating in `ComposePanel.vue` line 104: shown only while the
job is `queued` or `running`. -/
def composePanelShowCancel (j : Job) : Bool :=
  j.status == JobStatus.queued || j.status == JobStatus.running

/-! ## Backend job state machine, modelled from the spec

The repository snapshot contains only the frontend; the HTTP handlers behind
`POST /jobs/id/retry` and `POST /jobs/id/cancel` are not under `src/`.
They are modelled here from spec §3 "Job", §4.1 "Job Registry & State
Machine" (retry: `failed → queued` only, clears error and progress, same job
id; cancel: `queued` or `running` → `canceled` only; any other attempt is an
`InvalidStateTransition` error that leaves state unchanged). -/

/-- Spec §4.1/§7 error taxonomy entry for illegal job transitions. -/
inductive TransitionError where
  | invalidStateTransition
deriving DecidableEq, Repr

/-- Modelled from the spec: the backend retry handler (`POST /jobs/id/retry`,
missing from `src/`), spec §3 and §4.1 — a `failed` job is reset in place to
`queued` with progress 0 and error cleared, keeping its id; any other status is
rejected with `InvalidStateTransition`. -/
def retryJobBackend (j : Job) : Except TransitionError Job :=
  if j.status = JobStatus.failed then
    Except.ok { j with status := JobStatus.queued, progress := 0, error_message := none }
  else Except.error TransitionError.invalidStateTransition

/-- Modelled from the spec: the backend cancel handler (`POST /jobs/id/cancel`,
missing from `src/`), spec §4.1 — `canceled` is reachable from `queued` or
`running` only; any other status is rejected with `InvalidStateTransition`. -/
def cancelJobBackend (j : Job) : Except TransitionError Job :=
  if j.status = JobStatus.queued ∨ j.status = JobStatus.running then
    Except.ok { j with status := JobStatus.canceled }
  else Except.error TransitionError.invalidStateTransition

/-! ## Client-facing project update (from `api/index.ts` lines 46–47) -/

/-- The payload type of `projectApi.update`, `api/index.ts` line 46:
pick name String, description String, status String — all optional.  The
`status` string ranges over the `ProjectStatus` union. -/
structure ProjectUpdatePayload where
  name : Option String
  description : Option String
  status : Option ProjectStatus
deriving DecidableEq, Repr

/-- Modelled from the spec: the backend `PATCH /projects/id` handler is not
under `src/`; a PATCH partial update applies each present payload field to the
stored record, except that per spec §3 — "Status is never set directly by a
client; it is recomputed whenever constituent Segments or Jobs change" — a
client-supplied `status` is ignored. -/
def applyProjectUpdate (p : Project) (u : ProjectUpdatePayload) : Project :=
  { p with
    name := u.name.getD p.name
    description := match u.description with
      | some d => some d
      | none => p.description }

/-! ## Default video-composer configuration
(from `ConfigPanel`'s `defaultConfig.video_composer`, `ScriptPanel.vue`
bundle lines 1572–1594; numeric fields are in seconds) -/

structure VideoComposerConfig where
  frame_rate : String
  resolution : String
  is_portrait : Bool
  transition_type : String
  transition_duration : ℚ
  bgm_enabled : Bool
  bgm_asset_id : Option Nat
  bgm_volume : ℚ
  bgm_ducking : Bool
  subtitle_enabled : Bool
  subtitle_format : String
  subtitle_font : String
  subtitle_font_size : Nat
  subtitle_color : String
  subtitle_outline : Bool
  subtitle_position : String
  watermark_enabled : Bool
  watermark_text : Option String
  min_segment_duration : ℚ
  segment_padding : ℚ
  fallback_chars_per_second : ℚ
deriving DecidableEq, Repr

/-- `defaultConfig.video_composer`, lines 1572–1594 of the `ScriptPanel.vue`
bundle: the duration fields are seconds (`min_segment_duration: 1.5`,
`segment_padding: 0.3`). -/
def defaultVideoComposer : VideoComposerConfig where
  frame_rate := "30"
  resolution := "1080p"
  is_portrait := true
  transition_type := "淡入淡出"
  transition_duration := 0.3
  bgm_enabled := false
  bgm_asset_id := none
  bgm_volume := 0.3
  bgm_ducking := true
  subtitle_enabled := true
  subtitle_format := "srt"
  subtitle_font := "Microsoft YaHei"
  subtitle_font_size := 48
  subtitle_color := "#FFFFFF"
  subtitle_outline := true
  subtitle_position := "底部"
  watermark_enabled := false
  watermark_text := none
  min_segment_duration := 1.5
  segment_padding := 0.3
  fallback_chars_per_second := 4.5

/-! ## Segment editor save payload (from `ScriptPanel.vue` lines 482–502) -/

/-- The fields of the `Partial Segment` record `editingSegment` that
`saveSegment` sends as `updateData` (`ScriptPanel.vue` lines 482–502). -/
structure SegmentUpdateData where
  segment_title : Option String
  narration_text : Option String
  visual_prompt : Option String
  on_screen_text : Option String
  mood : Option String
  shot_type : Option String
  segment_metadata : Option SegmentMetadata
deriving DecidableEq, Repr

/-- `saveSegment`, `ScriptPanel.vue` lines 482–502: starts from a copy of
`editingSegment`; when the editor holds a non-empty `editingVisualPrompts`
list, it writes the list into `segment_metadata.visual_prompts` (spreading the
segment's existing metadata) and overwrites the top-level `visual_prompt` with
the first entry (`editingVisualPrompts.headD ""`, mirroring the JavaScript
first-element-or-empty-string expression). -/
def saveSegmentUpdateData (editing : SegmentUpdateData)
    (editingVisualPrompts : List String)
    (existingMetadata : Option SegmentMetadata) : SegmentUpdateData :=
  if editingVisualPrompts.length > 0 then
    { editing with
      segment_metadata :=
        some { existingMetadata.getD { visual_prompts := [], otherKeys := [] } with
               visual_prompts := editingVisualPrompts }
      visual_prompt := some (editingVisualPrompts.headD "") }
  else editing

/-! ## Subtitle cue splitting and timing (spec §4.3)

The timing/sequencing engine runs in the backend, which is not part of the
repository snapshot under `src/`; every definition in this section is modelled
from spec §4.3. -/

/-- Modelled from the spec: locale-aware sentence terminators of §4.3 step 1
(。！？ and .!?). -/
def isSentenceTerminator (c : Char) : Bool :=
  c == '。' || c == '！' || c == '？' || c == '.' || c == '!' || c == '?'

/-- Accumulator-passing worker for sentence splitting: `acc` holds the
characters of the sentence currently being read, in reverse. -/
def splitSentencesAux : List Char → List Char → List (List Char)
  | [], acc => if acc.isEmpty then [] else [acc.reverse]
  | c :: rest, acc =>
    if isSentenceTerminator c then
      (acc.reverse ++ [c]) :: splitSentencesAux rest []
    else
      splitSentencesAux rest (c :: acc)

/-- Modelled from the spec: §4.3 step 1 — split the narration text into
sentences at terminator characters, preserving the terminator in each
sentence; a trailing run without a terminator forms a final sentence. -/
def splitSentences (text : List Char) : List (List Char) :=
  splitSentencesAux text []

/-- Character count of the first `i` sentences (the proportional-allocation
prefix of §4.3 step 2). -/
def prefixCount (counts : List Nat) (i : Nat) : Nat :=
  (counts.take i).sum

/-- Modelled from the spec: the start time of cue `i` within a segment of
total duration `D` ms.  `C` is the total character count, `n` the number of
sentences, `P` the prefix character count, and `m` the minimum cue duration
floor of §4.3 step 3.  The naive proportional boundary `D * P i / C`
(§4.3 step 2) is clamped between `i * m` and `D - (n - i) * m`, which realises
the floor by borrowing time from longer neighbouring cues while pinning the
first boundary to `0` and the last to `D`, so the allocated total never
diverges from the segment duration. -/
def cueBoundary (D m C n : Nat) (P : Nat → Nat) (i : Nat) : Nat :=
  min (max (min (D * P i / C) (D - (n - i) * m)) (i * m)) D

/-- Modelled from the spec: §4.3 steps 1–3 — the list of sentence-cue
durations of one segment: duration of cue `i` is the time between consecutive
cue boundaries. -/
def cueDurations (m : Nat) (text : List Char) (D : Nat) : List Nat :=
  let counts := (splitSentences text).map List.length
  let C := counts.sum
  let n := counts.length
  (List.range n).map fun i =>
    cueBoundary D m C n (prefixCount counts) (i + 1)
      - cueBoundary D m C n (prefixCount counts) i

/-- Spec §4.3 step 3 names 500 ms as the minimum cue duration floor. -/
def defaultMinCueMs : Nat := 500

/-- Narration text of spec §8 Scenario A (two sentences, 24 characters). -/
def scenarioAText : List Char :=
  "天下大势，分久必合，合久必分。此乃千古不变之理。".data

/-! ## Concrete sample entities used by witnesses and counterexamples -/

/-- A segment with both a selected image and generated audio. -/
def sampleSegmentReady : Segment where
  id := 1
  project_id := 1
  script_id := some 1
  order_index := 0
  segment_title := none
  narration_text := "天下大势，分久必合，合久必分。"
  visual_prompt := some "古代战场全景"
  on_screen_text := none
  mood := none
  shot_type := none
  status := SegmentStatus.complete
  selected_image_asset_id := some 11
  audio_asset_id := some 12
  duration_ms := some 6000
  segment_metadata := none

/-- A segment with a selected image but no generated audio. -/
def sampleSegmentNoAudio : Segment :=
  { sampleSegmentReady with
    id := 2
    order_index := 1
    status := SegmentStatus.image_ready
    audio_asset_id := none
    duration_ms := none }

/-- A video-composition job currently `running`. -/
def sampleRunningComposeJob : Job where
  id := 7
  project_id := 1
  segment_id := none
  job_type := JobType.video_compose
  status := JobStatus.running
  progress := 40
  error_message := none
  params := none
  result := none
  celery_task_id := some "ct-7"
  created_at := "2025-01-01T00:00:00Z"
  started_at := some "2025-01-01T00:00:01Z"
  finished_at := none

/-- An image-generation job that has `failed` with partial progress and an
error message. -/
def sampleFailedJob : Job where
  id := 9
  project_id := 1
  segment_id := some 2
  job_type := JobType.image_gen
  status := JobStatus.failed
  progress := 60
  error_message := some "rate limited"
  params := some "count 3"
  result := none
  celery_task_id := some "ct-9"
  created_at := "2025-01-01T00:10:00Z"
  started_at := some "2025-01-01T00:10:02Z"
  finished_at := some "2025-01-01T00:11:00Z"

/-- A project still in `draft`. -/
def sampleProjectDraft : Project where
  id := 1
  name := "三国演义"
  description := none
  status := ProjectStatus.draft
  created_at := "2025-01-01T00:00:00Z"
  updated_at := "2025-01-01T00:00:00Z"

/-- An update payload that carries a status value. -/
def samplePayloadWithStatus : ProjectUpdatePayload where
  name := none
  description := none
  status := some ProjectStatus.exported

/-- Editor state for a segment being saved in multi-scene mode. -/
def sampleSegmentEdit : SegmentUpdateData where
  segment_title := some "开篇"
  narration_text := some "天下大势，分久必合，合久必分。"
  visual_prompt := some "旧的单场景提示词"
  on_screen_text := none
  mood := some "磅礴"
  shot_type := some "全景"
  segment_metadata := none

/-- Multi-scene visual prompts being saved. -/
def sampleVisualPrompts : List String :=
  ["古代战场全景", "书房中的谋士"]

/-! ### Arithmetic infrastructure for the timing engine -/

/-- Sentence splitting preserves the total character count. -/
theorem splitSentencesAux_sum_length (l acc : List Char) :
    ((splitSentencesAux l acc).map List.length).sum = l.length + acc.length := by
  induction l generalizing acc with
  | nil =>
    by_cases h : acc.isEmpty
    · simp [splitSentencesAux, h, List.isEmpty_iff.mp h]
    · simp [splitSentencesAux, h]
  | cons c rest ih =>
    by_cases h : isSentenceTerminator c
    · simp [splitSentencesAux, h, ih]
      omega
    · simp [splitSentencesAux, h, ih]
      omega

/-- Total character count over all sentences is the text length. -/
theorem splitSentences_sum_length (text : List Char) :
    ((splitSentences text).map List.length).sum = text.length := by
  simpa using splitSentencesAux_sum_length text []

/-- Prefix character counts are monotone. -/
theorem prefixCount_mono (counts : List Nat) {i j : Nat} (h : i ≤ j) :
    prefixCount counts i ≤ prefixCount counts j := by
  unfold prefixCount
  have hj : j = i + (j - i) := by omega
  rw [hj, List.take_add, List.sum_append]
  exact Nat.le_add_right _ _

/-- Cue boundaries are monotone in the cue index. -/
theorem cueBoundary_mono (D m C n : Nat) (counts : List Nat) {i j : Nat}
    (h : i ≤ j) :
    cueBoundary D m C n (prefixCount counts) i
      ≤ cueBoundary D m C n (prefixCount counts) j := by
  unfold cueBoundary
  have h1 : D * prefixCount counts i / C ≤ D * prefixCount counts j / C :=
    Nat.div_le_div_right (Nat.mul_le_mul le_rfl (prefixCount_mono counts h))
  have h2 : (n - j) * m ≤ (n - i) * m :=
    Nat.mul_le_mul_right m (Nat.sub_le_sub_left h n)
  have h3 : D - (n - i) * m ≤ D - (n - j) * m := by omega
  have h4 : i * m ≤ j * m := Nat.mul_le_mul_right m h
  exact min_le_min (max_le_max (min_le_min h1 h3) h4) le_rfl

/-- Telescoping: the consecutive differences of a monotone sequence sum to its
total variation. -/
theorem sum_range_map_sub (f : Nat → Nat) (hf : ∀ a b, a ≤ b → f a ≤ f b) :
    ∀ n : Nat, ((List.range n).map fun i => f (i + 1) - f i).sum = f n - f 0 := by
  intro n
  induction n with
  | zero => simp
  | succ k ih =>
    rw [List.range_succ, List.map_append, List.sum_append]
    have h1 : f 0 ≤ f k := hf 0 k (Nat.zero_le k)
    have h2 : f k ≤ f (k + 1) := hf k (k + 1) (Nat.le_succ k)
    simp [ih]
    omega

/-- The first cue boundary is 0. -/
theorem cueBoundary_zero (D m C n : Nat) (counts : List Nat) :
    cueBoundary D m C n (prefixCount counts) 0 = 0 := by
  simp [cueBoundary, prefixCount]

/-- The last cue boundary is the full segment duration. -/
theorem cueBoundary_last (D m : Nat) (counts : List Nat) (hC : 0 < counts.sum) :
    cueBoundary D m counts.sum counts.length (prefixCount counts) counts.length
      = D := by
  unfold cueBoundary
  rw [show prefixCount counts counts.length = counts.sum by
        simp [prefixCount, List.take_length]]
  rw [Nat.mul_div_cancel D hC]
  simp

/-- Exact duration preservation of the cue allocation, for any floor, any
nonempty narration and any total duration. -/
theorem cueDurations_sum (m : Nat) (text : List Char) (D : Nat)
    (h : text ≠ []) : (cueDurations m text D).sum = D := by
  have hC : 0 < ((splitSentences text).map List.length).sum := by
    rw [splitSentences_sum_length]
    cases text with
    | nil => exact absurd rfl h
    | cons c l => simp
  show ((List.range ((splitSentences text).map List.length).length).map fun i =>
      cueBoundary D m ((splitSentences text).map List.length).sum
          ((splitSentences text).map List.length).length
          (prefixCount ((splitSentences text).map List.length)) (i + 1)
        - cueBoundary D m ((splitSentences text).map List.length).sum
          ((splitSentences text).map List.length).length
          (prefixCount ((splitSentences text).map List.length)) i).sum = D
  rw [sum_range_map_sub _ (fun a b hab => cueBoundary_mono _ _ _ _ _ hab)]
  rw [cueBoundary_last _ _ _ hC, cueBoundary_zero]
  omega

/-! ## Helper lemmas for the readiness predicates -/

/-- `imagesReady` spelled out: at least one segment and every segment has a
selected image. -/
theorem imagesReady_iff (segments : List Segment) :
    imagesReady segments = true ↔
      segments ≠ [] ∧ ∀ s ∈ segments, s.selected_image_asset_id.isSome = true := by
  unfold imagesReady imageCount
  rw [Bool.and_eq_true, decide_eq_true_iff, beq_iff_eq, List.filter_length_eq_length]
  constructor
  · rintro ⟨h1, h2⟩
    exact ⟨List.ne_nil_of_length_pos h1, h2⟩
  · rintro ⟨h1, h2⟩
    exact ⟨List.length_pos.mpr h1, h2⟩

/-- `audioReady` spelled out: at least one segment and every segment has
generated audio. -/
theorem audioReady_iff (segments : List Segment) :
    audioReady segments = true ↔
      segments ≠ [] ∧ ∀ s ∈ segments, s.audio_asset_id.isSome = true := by
  unfold audioReady audioCount
  rw [Bool.and_eq_true, decide_eq_true_iff, beq_iff_eq, List.filter_length_eq_length]
  constructor
  · rintro ⟨h1, h2⟩
    exact ⟨List.ne_nil_of_length_pos h1, h2⟩
  · rintro ⟨h1, h2⟩
    exact ⟨List.length_pos.mpr h1, h2⟩

/-- `hasRunningJob` over the server-filtered compose-job list, spelled out over
the project's full job list. -/
theorem hasRunningJob_filter_iff (jobs : List Job) :
    hasRunningJob (videoComposeJobs jobs) = true ↔
      ∃ j ∈ jobs, j.job_type = JobType.video_compose ∧
        (j.status = JobStatus.queued ∨ j.status = JobStatus.running) := by
  unfold hasRunningJob videoComposeJobs
  rw [List.any_eq_true]
  constructor
  · rintro ⟨j, hj, hst⟩
    rw [List.mem_filter, beq_iff_eq] at hj
    rw [Bool.or_eq_true, beq_iff_eq, beq_iff_eq] at hst
    exact ⟨j, hj.1, hj.2, hst.symm⟩
  · rintro ⟨j, hj, hty, hst⟩
    refine ⟨j, ?_, ?_⟩
    · rw [List.mem_filter, beq_iff_eq]
      exact ⟨hj, hty⟩
    · rw [Bool.or_eq_true, beq_iff_eq, beq_iff_eq]
      exact hst.symm

/-! ## Frame lemmas for the job store cache updates -/

/-- `retryJob` leaves the sublist of entries with a different id untouched. -/
theorem storeRetryJob_filter_ne (jobs : List Job) (id : Nat) :
    (storeRetryJob jobs id).filter (fun j => decide (j.id ≠ id))
      = jobs.filter (fun j => decide (j.id ≠ id)) := by
  simp only [ne_eq, decide_not]
  induction jobs with
  | nil => rfl
  | cons j t ih =>
    by_cases h : j.id = id
    · simp [storeRetryJob, h]
    · simp [storeRetryJob, h, ih]

/-- `cancelJob` leaves the sublist of entries with a different id untouched. -/
theorem storeCancelJob_filter_ne (jobs : List Job) (id : Nat) :
    (storeCancelJob jobs id).filter (fun j => decide (j.id ≠ id))
      = jobs.filter (fun j => decide (j.id ≠ id)) := by
  simp only [ne_eq, decide_not]
  induction jobs with
  | nil => rfl
  | cons j t ih =>
    by_cases h : j.id = id
    · simp [storeCancelJob, h]
    · simp [storeCancelJob, h, ih]

/-- `retryJob` preserves the job ids of the cached list, in order. -/
theorem storeRetryJob_map_id (jobs : List Job) (id : Nat) :
    (storeRetryJob jobs id).map Job.id = jobs.map Job.id := by
  induction jobs with
  | nil => rfl
  | cons j t ih =>
    by_cases h : j.id = id
    · simp [storeRetryJob, h]
    · simp [storeRetryJob, h, ih]

/-- `cancelJob` preserves the job ids of the cached list, in order. -/
theorem storeCancelJob_map_id (jobs : List Job) (id : Nat) :
    (storeCancelJob jobs id).map Job.id = jobs.map Job.id := by
  induction jobs with
  | nil => rfl
  | cons j t ih =>
    by_cases h : j.id = id
    · simp [storeCancelJob, h]
    · simp [storeCancelJob, h, ih]

/-! ## Claim theorems -/

/-- C1 (counterexample): the claim "`canCompose` returns true iff the project
has at least one segment, every segment has both a selected image and
generated audio, and no video-composition job is queued or running" fails on
the code.  `ComposePanel.vue`'s `canCompose` is true for a fully ready segment
even while a video-composition job is `running`, and `ProjectEditor.vue`'s
`canCompose` is true for a segment with a selected image but no audio. -/
theorem canCompose_claim_counterexample :
    composePanelCanCompose [sampleSegmentReady] = true
      ∧ ¬ specCanCompose [sampleSegmentReady] [sampleRunningComposeJob]
      ∧ projectEditorCanCompose [sampleSegmentNoAudio] false = true
      ∧ ¬ specCanCompose [sampleSegmentNoAudio] [] := by
  refine ⟨by decide, ?_, by decide, ?_⟩
  · decide
  · decide

/-- C1 (amended): `ComposePanel.vue`'s `canCompose` checks only segment
readiness (at least one segment, every segment with both a selected image and
generated audio); the absence of a queued/running video-composition job is
enforced separately by the `isGlobalComposing` guard on the compose button, so
the compose-button enablement equals the claimed conjunction. -/
theorem composeButtonEnabled_iff_specCanCompose (segments : List Segment)
    (jobs : List Job) :
    composeButtonEnabled segments jobs = true ↔ specCanCompose segments jobs := by
  unfold composeButtonEnabled composePanelCanCompose isGlobalComposing
    flagAfterFetch specCanCompose
  rw [Bool.or_false, Bool.and_eq_true, Bool.and_eq_true, Bool.not_eq_true',
    imagesReady_iff, audioReady_iff]
  constructor
  · rintro ⟨⟨⟨hne, hi⟩, _, ha⟩, hf⟩
    refine ⟨hne, fun s hs => ⟨hi s hs, ha s hs⟩, fun hex => ?_⟩
    rw [(hasRunningJob_filter_iff jobs).mpr hex] at hf
    simp at hf
  · rintro ⟨hne, hall, hno⟩
    refine ⟨⟨⟨hne, fun s hs => (hall s hs).1⟩, hne, fun s hs => (hall s hs).2⟩, ?_⟩
    cases hr : hasRunningJob (videoComposeJobs jobs) with
    | false => rfl
    | true => exact absurd ((hasRunningJob_filter_iff jobs).mp hr) hno

/-- C2: the displayed segment readiness status is a pure function of the two
asset pointers: "就绪" (ready/complete) exactly when both the selected image
and the audio asset are present, one of the two intermediate labels exactly
when exactly one is present, and "待处理" (pending) exactly when neither is —
so the label can never disagree with the pointers. -/
theorem getSegmentStatusLabel_iff (s : Segment) :
    (getSegmentStatusLabel s = "就绪" ↔
        s.selected_image_asset_id.isSome = true ∧ s.audio_asset_id.isSome = true)
    ∧ (getSegmentStatusLabel s = "缺音频" ↔
        s.selected_image_asset_id.isSome = true ∧ s.audio_asset_id.isSome = false)
    ∧ (getSegmentStatusLabel s = "缺图片" ↔
        s.selected_image_asset_id.isSome = false ∧ s.audio_asset_id.isSome = true)
    ∧ (getSegmentStatusLabel s = "待处理" ↔
        s.selected_image_asset_id.isSome = false ∧ s.audio_asset_id.isSome = false) := by
  cases h1 : s.selected_image_asset_id <;> cases h2 : s.audio_asset_id <;>
    simp [getSegmentStatusLabel, h1, h2]

/-- C3: retrying a `failed` job resets that same job in place — same id, status
back to `queued`, progress 0, error message cleared, every other field
untouched (backend handler modelled from the spec; the frontend cache mirrors
the status change). -/
theorem retryJobBackend_resets_in_place (j : Job)
    (h : j.status = JobStatus.failed) :
    retryJobBackend j = Except.ok
      { j with status := JobStatus.queued, progress := 0, error_message := none } := by
  simp [retryJobBackend, h]

/-- C3 witness: the reset at a concrete failed job. -/
theorem retryJobBackend_resets_in_place_witness :
    sampleFailedJob.status = JobStatus.failed
      ∧ retryJobBackend sampleFailedJob = Except.ok
          { sampleFailedJob with
            status := JobStatus.queued, progress := 0, error_message := none } :=
  ⟨rfl, retryJobBackend_resets_in_place sampleFailedJob rfl⟩

/-- C4 (counterexample): the claim "no client-facing project update operation
carries or applies a status value" fails on its "carries" half: the payload
type of `projectApi.update` (`api/index.ts` line 46) has an optional `status`
field, so a well-typed update request can carry a status value — even though
the handler (modelled per spec §3) does not apply it. -/
theorem projectUpdate_status_counterexample :
    samplePayloadWithStatus.status = some ProjectStatus.exported
      ∧ (applyProjectUpdate sampleProjectDraft samplePayloadWithStatus).status
          = sampleProjectDraft.status := by
  refine ⟨rfl, rfl⟩

/-- C4 (amended): the `projectApi.update` payload type carries an optional
status field, but the update never applies one: for every project and every
payload — a status value carried included — the updated project keeps its
status. -/
theorem applyProjectUpdate_preserves_status (p : Project)
    (u : ProjectUpdatePayload) :
    (applyProjectUpdate p u).status = p.status := rfl

/-- C5: a job transitions to `canceled` only from `queued` or `running`: the
cancel action is rendered only for such jobs (`TaskCenter.vue` line 87,
`ComposePanel.vue` line 104), and the cancel transition (modelled from the
spec) succeeds exactly on those statuses, producing `canceled`, and rejects
every terminal status. -/
theorem cancel_only_from_queued_or_running (j : Job) :
    (showCancelButton j = true ↔
        j.status = JobStatus.queued ∨ j.status = JobStatus.running)
    ∧ composePanelShowCancel j = showCancelButton j
    ∧ ((cancelJobBackend j).toOption.isSome = showCancelButton j)
    ∧ ((cancelJobBackend j).toOption.map Job.status =
        if j.status = JobStatus.queued ∨ j.status = JobStatus.running then
          some JobStatus.canceled
        else none) := by
  cases hj : j.status <;>
    simp [showCancelButton, composePanelShowCancel, cancelJobBackend,
      Except.toOption, hj] <;> decide

/-- C6: the `isComposing` flag is a read-through view of job state — after
every successful `fetchComposeJobs` refresh it equals "some video-composition
job of the project is `queued` or `running`", regardless of its previous
value; in particular it is never left `true` when no non-terminal
video-composition job exists. -/
theorem isComposing_flag_readthrough (oldFlag : Bool) (jobs : List Job) :
    flagAfterFetch oldFlag jobs = true ↔
      ∃ j ∈ jobs, j.job_type = JobType.video_compose ∧
        (j.status = JobStatus.queued ∨ j.status = JobStatus.running) := by
  exact hasRunningJob_filter_iff jobs

/-- C7: retrying or canceling one job touches at most the cached entry with
the matching id: the sublist of all other entries is unchanged (all fields),
and the id sequence of the whole list is preserved (no entry added, removed,
or re-keyed). -/
theorem retry_cancel_job_isolation (jobs : List Job) (id : Nat) :
    (storeRetryJob jobs id).filter (fun j => decide (j.id ≠ id))
        = jobs.filter (fun j => decide (j.id ≠ id))
    ∧ (storeCancelJob jobs id).filter (fun j => decide (j.id ≠ id))
        = jobs.filter (fun j => decide (j.id ≠ id))
    ∧ (storeRetryJob jobs id).map Job.id = jobs.map Job.id
    ∧ (storeCancelJob jobs id).map Job.id = jobs.map Job.id :=
  ⟨storeRetryJob_filter_ne jobs id, storeCancelJob_filter_ne jobs id,
    storeRetryJob_map_id jobs id, storeCancelJob_map_id jobs id⟩

/-- C8: the sentence-cue durations produced by the subtitle splitter (modelled
from spec §4.3: proportional allocation with a minimum-cue floor realised by
borrowing from neighbouring cues) sum exactly to the segment's total duration
— divergence 0 ms, within the claimed 1 ms — for every non-empty narration
text and every total duration at or above the floor. -/
theorem subtitle_cue_durations_total (text : List Char) (D : Nat)
    (h1 : text ≠ []) (h2 : defaultMinCueMs ≤ D) :
    (cueDurations defaultMinCueMs text D).sum = D :=
  cueDurations_sum defaultMinCueMs text D h1

/-- C8 witness: spec §8 Scenario A — the two-sentence narration with a
6300 ms segment duration gets cues summing to exactly 6300 ms. -/
theorem subtitle_cue_durations_total_witness :
    scenarioAText ≠ [] ∧ defaultMinCueMs ≤ 6300
      ∧ (cueDurations defaultMinCueMs scenarioAText 6300).sum = 6300 :=
  ⟨by decide, by decide,
    subtitle_cue_durations_total scenarioAText 6300 (by decide) (by decide)⟩

/-- C9: the default video-composer configuration sets the minimum segment
duration floor to 1.5 s = 1500 ms and the per-segment padding to
0.3 s = 300 ms (the config stores seconds). -/
theorem defaultVideoComposer_duration_defaults :
    defaultVideoComposer.min_segment_duration * 1000 = 1500
      ∧ defaultVideoComposer.segment_padding * 1000 = 300 := by
  constructor <;> norm_num [defaultVideoComposer]

/-- C10: saving a segment edited in multi-scene mode with a non-empty scene
prompt list writes the list into `segment_metadata.visual_prompts` and sets
the top-level `visual_prompt` to its first entry, so the single-scene field
always matches scene 0 of the saved scene list. -/
theorem saveSegment_visual_prompt_first_scene (editing : SegmentUpdateData)
    (prompts : List String) (meta : Option SegmentMetadata)
    (h : prompts ≠ []) :
    (saveSegmentUpdateData editing prompts meta).visual_prompt
        = (saveSegmentUpdateData editing prompts meta).segment_metadata.map
            (fun md => md.visual_prompts.headD "")
      ∧ (saveSegmentUpdateData editing prompts meta).segment_metadata.map
            SegmentMetadata.visual_prompts = some prompts := by
  cases prompts with
  | nil => exact absurd rfl h
  | cons p rest => simp [saveSegmentUpdateData]

/-- C10 witness: saving with two scene prompts. -/
theorem saveSegment_visual_prompt_first_scene_witness :
    sampleVisualPrompts ≠ []
      ∧ ((saveSegmentUpdateData sampleSegmentEdit sampleVisualPrompts none).visual_prompt
          = (saveSegmentUpdateData sampleSegmentEdit sampleVisualPrompts
              none).segment_metadata.map (fun md => md.visual_prompts.headD "")
        ∧ (saveSegmentUpdateData sampleSegmentEdit sampleVisualPrompts
              none).segment_metadata.map SegmentMetadata.visual_prompts
            = some sampleVisualPrompts) :=
  ⟨by decide,
    saveSegment_visual_prompt_first_scene sampleSegmentEdit sampleVisualPrompts
      none (by decide)⟩
